import Mathlib

/-!
# 3D_CubeOpenGL: the frame updater of `TestsInOpenGL.cpp`

A shallow embedding of `main` (src/TestsInOpenGL/src/TestsInOpenGL.cpp).

* Scalars.  The C++ `float`/`double` values are idealised as elements of a field `K`
  (the theorems take `K = ℝ`): rounding, NaN and signed zero are outside the model, and
  the `double → float` conversions of lines 181-183 are the identity.
* The C math library (`cos`, `sin`, `sqrt`) and the constant `π` are passed as a record
  `CMath K`, so every definition below is an ordinary computable function.
* External calls (GLFW, GLEW, OpenGL, the standard streams) are recorded as a trace of
  `Call`s; what the outside world answers is read from an `Env`.
-/

namespace CubeOpenGL

/-! ## Scalars and the math library -/

/-- The functions of `<cmath>` that `glm::rotate` and `glm::radians` rely on. -/
structure CMath (K : Type) where
  cos : K → K
  sin : K → K
  sqrt : K → K
  pi : K

/-- Exact real arithmetic: the math library computes the true real functions. -/
def CMath.Exact (L : CMath ℝ) : Prop :=
  L.cos = Real.cos ∧ L.sin = Real.sin ∧ L.sqrt = Real.sqrt ∧ L.pi = Real.pi

/-! ## GLM vectors and matrices (column major) -/

/-- A `glm::vec3`. -/
structure Vec3 (K : Type) where
  x : K
  y : K
  z : K

/-- A `glm::vec4`. -/
structure Vec4 (K : Type) where
  x : K
  y : K
  z : K
  w : K

/-- A `glm::mat4`: four columns, `m[0]` to `m[3]`. -/
structure Mat4 (K : Type) where
  c0 : Vec4 K
  c1 : Vec4 K
  c2 : Vec4 K
  c3 : Vec4 K

/-- The nine entries that `glm::rotate` writes into its local `Rotate`;
`rij` is `Rotate[i][j]`, column `i`, row `j`. -/
structure Rot3 (K : Type) where
  r00 : K
  r01 : K
  r02 : K
  r10 : K
  r11 : K
  r12 : K
  r20 : K
  r21 : K
  r22 : K

section Defs

variable {K : Type} [Field K]

/-- The product `v * s` of a `vec3` and a scalar. -/
def Vec3.scale (v : Vec3 K) (s : K) : Vec3 K :=
  ⟨v.x * s, v.y * s, v.z * s⟩

/-- The value of `glm::dot(a, b)` on `vec3`. -/
def Vec3.dot (a b : Vec3 K) : K :=
  a.x * b.x + a.y * b.y + a.z * b.z

/-- The product `v * s` of a `vec4` and a scalar. -/
def Vec4.scale (v : Vec4 K) (s : K) : Vec4 K :=
  ⟨v.x * s, v.y * s, v.z * s, v.w * s⟩

/-- The sum of two `vec4`. -/
def Vec4.add (a b : Vec4 K) : Vec4 K :=
  ⟨a.x + b.x, a.y + b.y, a.z + b.z, a.w + b.w⟩

/-- The matrix `glm::mat4(1.0f)`. -/
def Mat4.identity : Mat4 K :=
  ⟨⟨1, 0, 0, 0⟩, ⟨0, 1, 0, 0⟩, ⟨0, 0, 1, 0⟩, ⟨0, 0, 0, 1⟩⟩

/-- Modelled from the spec: `glm::radians` (GLM header, not under src/) converts an angle
in degrees to radians, `degrees * π / 180`. -/
def radians (L : CMath K) (degrees : K) : K :=
  degrees * L.pi / 180

/-- Modelled from the spec: `glm::inversesqrt` (GLM header, not under src/),
`1 / sqrt(x)`. -/
def inversesqrt (L : CMath K) (x : K) : K :=
  1 / L.sqrt x

/-- Modelled from the spec: `glm::normalize` (GLM header, not under src/),
`v * inversesqrt(dot(v, v))`. -/
def normalize (L : CMath K) (v : Vec3 K) : Vec3 K :=
  v.scale (inversesqrt L (v.dot v))

/-- Modelled from the spec: the local matrix `Rotate` that `glm::rotate` (GLM header, not
under src/) builds from the angle and the normalised axis. -/
def rotationPart (L : CMath K) (angle : K) (v : Vec3 K) : Rot3 K :=
  let a := angle
  let c := L.cos a
  let s := L.sin a
  let axis := normalize L v
  let temp := axis.scale (1 - c)
  { r00 := c + temp.x * axis.x
    r01 := temp.x * axis.y + s * axis.z
    r02 := temp.x * axis.z - s * axis.y
    r10 := temp.y * axis.x - s * axis.z
    r11 := c + temp.y * axis.y
    r12 := temp.y * axis.z + s * axis.x
    r20 := temp.z * axis.x + s * axis.y
    r21 := temp.z * axis.y - s * axis.x
    r22 := c + temp.z * axis.z }

/-- Modelled from the spec: `glm::rotate(m, angle, v)` (GLM header, not under src/): the
first three columns of the result are combinations of the columns of `m` weighted by
`Rotate`, the fourth column is kept. -/
def rotate (L : CMath K) (m : Mat4 K) (angle : K) (v : Vec3 K) : Mat4 K :=
  let R := rotationPart L angle v
  { c0 := ((m.c0.scale R.r00).add (m.c1.scale R.r01)).add (m.c2.scale R.r02)
    c1 := ((m.c0.scale R.r10).add (m.c1.scale R.r11)).add (m.c2.scale R.r12)
    c2 := ((m.c0.scale R.r20).add (m.c1.scale R.r21)).add (m.c2.scale R.r22)
    c3 := m.c3 }

/-! ## The orientation state and one frame (lines 167-189) -/

/-- The vector `axis0(0.0f, 0.6f, 0.5f)` of line 170. -/
def axis0 : Vec3 K := ⟨0, 0.6, 0.5⟩

/-- The vector `axis1(0.0f, 1, 0)` of line 172. -/
def axis1 : Vec3 K := ⟨0, 1, 0⟩

/-- The locals that live across iterations of the frame loop. -/
structure LoopState (K : Type) where
  rotation : K
  model : Mat4 K
  currentFrame : K

/-- The state when the loop is first reached (lines 167-173). -/
def initState (L : CMath K) : LoopState K :=
  let rotation : K := 90
  let model : Mat4 K := Mat4.identity
  let model := rotate L model (radians L rotation) axis0
  { rotation := rotation, model := model, currentFrame := 0 }

/-- The time delta of a frame that reads the clock value `t` (lines 181-182). -/
def deltaTime (s : LoopState K) (t : K) : K :=
  let newFrame := t
  newFrame - s.currentFrame

/-- The angle handed to `glm::rotate` in a frame that reads the clock value `t`
(lines 186 and 189). -/
def frameAngle (L : CMath K) (s : LoopState K) (t : K) : K :=
  radians L (deltaTime s t * 10)

/-- The state update of one loop body (lines 181-189); `t` is what `glfwGetTime` returned. -/
def frameStep (L : CMath K) (s : LoopState K) (t : K) : LoopState K :=
  let newFrame := t
  let deltaTime := newFrame - s.currentFrame
  let currentFrame := newFrame
  let rotation := deltaTime * 10
  let model := rotate L s.model (radians L rotation) axis1
  { rotation := rotation, model := model, currentFrame := currentFrame }

/-- The state after the frames that read the clock values `ts`, in order. -/
def runFrames (L : CMath K) (s : LoopState K) (ts : List K) : LoopState K :=
  ts.foldl (frameStep L) s

/-! ## Matrices as Mathlib matrices

`glm::mat4` is column major: `m[j][i]` is the entry in row `i`, column `j`. -/

/-- Component `i` of a `vec4`. -/
def Vec4.get (v : Vec4 K) : Fin 4 → K
  | 0 => v.x
  | 1 => v.y
  | 2 => v.z
  | 3 => v.w

/-- Column `j` of a `mat4`, the C++ `m[j]`. -/
def Mat4.col (m : Mat4 K) : Fin 4 → Vec4 K
  | 0 => m.c0
  | 1 => m.c1
  | 2 => m.c2
  | 3 => m.c3

/-- The mathematical matrix a `mat4` stands for: entry `(i, j)` is `m[j][i]`. -/
def Mat4.toMatrix (m : Mat4 K) : Matrix (Fin 4) (Fin 4) K :=
  Matrix.of fun i j => (m.col j).get i

/-- The first three components of a `vec4`. -/
def Vec4.xyz (v : Vec4 K) : Fin 3 → K
  | 0 => v.x
  | 1 => v.y
  | 2 => v.z

/-- The first three columns of a `mat4`. -/
def Mat4.col3 (m : Mat4 K) : Fin 3 → Vec4 K
  | 0 => m.c0
  | 1 => m.c1
  | 2 => m.c2

/-- The upper-left 3×3 block of the matrix a `mat4` stands for: rows and columns 0 to 2. -/
def Mat4.block3 (m : Mat4 K) : Matrix (Fin 3) (Fin 3) K :=
  Matrix.of fun i j => (m.col3 j).xyz i

/-- The homogeneous 4×4 matrix of a rotation: `Rotate` in the upper-left block, last row and
column `(0, 0, 0, 1)`. -/
def Rot3.toMat4 (R : Rot3 K) : Mat4 K :=
  ⟨⟨R.r00, R.r01, R.r02, 0⟩, ⟨R.r10, R.r11, R.r12, 0⟩, ⟨R.r20, R.r21, R.r22, 0⟩, ⟨0, 0, 0, 1⟩⟩

/-- The product of two `mat4`, column by column: column `j` of `a * b` is the combination of
the columns of `a` weighted by column `j` of `b`. -/
def Mat4.mul (a b : Mat4 K) : Mat4 K :=
  let lin (c : Vec4 K) : Vec4 K :=
    (((a.c0.scale c.x).add (a.c1.scale c.y)).add (a.c2.scale c.z)).add (a.c3.scale c.w)
  ⟨lin b.c0, lin b.c1, lin b.c2, lin b.c3⟩

/-- The time deltas of the frames that read the clock values `ts`, the previous-frame time
being `prev` before the first of them. -/
def frameDeltas (prev : K) : List K → List K
  | [] => []
  | t :: ts => (t - prev) :: frameDeltas t ts

/-- The initial tilt `T`: the rotation by 90 degrees about `axis0`. -/
def tiltMatrix (L : CMath K) : Matrix (Fin 4) (Fin 4) K :=
  (rotationPart L (radians L 90) axis0).toMat4.toMatrix

/-- The rotation by `angle` (in radians) about `axis1 = (0, 1, 0)`. -/
def yRotation (L : CMath K) (angle : K) : Matrix (Fin 4) (Fin 4) K :=
  (rotationPart L angle axis1).toMat4.toMatrix

/-! ## The mesh (lines 88-116) -/

/-- The array `vertices` of line 89. -/
def vertices : List K :=
  [ -0.5, -0.5,  0.5,
     0.5, -0.5,  0.5,
     0.5,  0.5,  0.5,
    -0.5,  0.5,  0.5,
    -0.5, -0.5, -0.5,
     0.5, -0.5, -0.5,
     0.5,  0.5, -0.5,
    -0.5,  0.5, -0.5 ]

/-- The array `indices` of line 103. -/
def indices : List Nat :=
  [ 0, 1, 2,
    2, 3, 0,
    4, 5, 6,
    6, 7, 4,
    1, 5, 6,
    6, 2, 1,
    0, 4, 7,
    7, 3, 0,
    3, 2, 6,
    6, 7, 3,
    0, 1, 5,
    5, 4, 0 ]

/-- The value of `sizeof(float)`: four bytes, as OpenGL's `GL_FLOAT` requires. -/
def sizeofFloat : Nat := 4

/-- The value of `sizeof(unsigned int)`: four bytes, as `GL_UNSIGNED_INT` requires. -/
def sizeofUnsignedInt : Nat := 4

/-- The value of `sizeof(a)` for a C array `a` whose elements take `elemSize` bytes. -/
def sizeofArray {α : Type} (elemSize : Nat) (a : List α) : Nat :=
  a.length * elemSize

/-- The number of floats per vertex position, the `3` of `glVertexAttribPointer(0, 3, ...)`. -/
def floatsPerVertex : Nat := 3

/-- The number of vertices the vertex buffer holds. -/
def vertexCount : Nat :=
  (vertices : List ℚ).length / floatsPerVertex

end Defs

/-! ## External calls and the environment -/

/-- The OpenGL objects the program creates, named after the variables that hold them. -/
inductive Obj where
  | VBO
  | VAO
  | EBO
  | vertexShader
  | fragmentShader
  | shaderProgram

/-- The buffer binding points used. -/
inductive Target where
  | arrayBuffer
  | elementArrayBuffer

/-- The shader stages used. -/
inductive Stage where
  | vertex
  | fragment

/-- One call that leaves the program, with the arguments that matter here and, for calls
whose answer the program branches on, the answer. -/
inductive Call (K : Type) where
  | glfwInit (ok : Bool)
  | glfwCreateWindow (width height : Nat) (title : String) (ok : Bool)
  | glfwTerminate
  | glfwMakeContextCurrent
  | glewInit (ok : Bool)
  | cout (line : String)
  | cerr (line : String)
  | glGetString
  | glGenBuffers (n : Nat) (o : Obj)
  | glBindBuffer (target : Target) (o : Obj)
  | glBufferDataFloat (target : Target) (size : Nat) (data : List K)
  | glBufferDataUInt (target : Target) (size : Nat) (data : List Nat)
  | glGenVertexArrays (n : Nat) (o : Obj)
  | glBindVertexArray (o : Option Obj)
  | glVertexAttribPointer (index size stride : Nat)
  | glEnableVertexAttribArray (index : Nat)
  | glCreateShader (stage : Stage)
  | glShaderSource (o : Obj)
  | glCompileShader (o : Obj)
  | glCreateProgram
  | glAttachShader (program shader : Obj)
  | glLinkProgram (program : Obj)
  | glGetProgramiv (program : Obj) (success : Bool)
  | glGetProgramInfoLog (program : Obj) (maxLength : Nat)
  | glUseProgram (program : Obj)
  | glGetUniformLocation (program : Obj) (name : String)
  | glfwWindowShouldClose (flag : Bool)
  | glClear
  | glfwGetTime (t : K)
  | glUniformMatrix4fv (count : Nat) (value : Mat4 K)
  | glDrawElements (count : Nat)
  | glfwSwapBuffers
  | glfwPollEvents
  | glDeleteVertexArrays (n : Nat) (o : Obj)
  | glDeleteBuffers (n : Nat) (o : Obj)

/-- What the outside world answers during one run. -/
structure Env (K : Type) where
  /-- Whether `glfwInit` succeeds. -/
  glfwInitOk : Bool
  /-- Whether `glfwCreateWindow` returns a window. -/
  windowCreated : Bool
  /-- Whether `glewInit` returns `GLEW_OK`. -/
  glewOk : Bool
  /-- The string `glGetString(GL_VERSION)` returns. -/
  glVersion : String
  /-- Whether `GL_LINK_STATUS` is non-zero. -/
  linkSuccess : Bool
  /-- The text `glGetProgramInfoLog` writes into `infoLog`. -/
  infoLog : String
  /-- The answer of the `k`-th call of `glfwWindowShouldClose`, counted from 0. -/
  shouldClose : Nat → Bool
  /-- The answer of the `k`-th call of `glfwGetTime`, counted from 0. -/
  time : Nat → K

/-- What an observer has seen of a run: the calls so far and, when `main` has returned, its
return value. -/
structure Outcome (K : Type) where
  trace : List (Call K)
  exitCode : Option Int

section Program

variable {K : Type} [Field K]

/-- The buffer and vertex-array set-up of lines 118-135. -/
def meshCalls : List (Call K) :=
  [ .glGenBuffers 1 .VBO,
    .glBindBuffer .arrayBuffer .VBO,
    .glBufferDataFloat .arrayBuffer (sizeofArray sizeofFloat (vertices : List K)) vertices,
    .glGenVertexArrays 1 .VAO,
    .glBindVertexArray (some .VAO),
    .glVertexAttribPointer 0 3 (3 * sizeofFloat),
    .glEnableVertexAttribArray 0,
    .glGenBuffers 1 .EBO,
    .glBindBuffer .elementArrayBuffer .EBO,
    .glBufferDataUInt .elementArrayBuffer (sizeofArray sizeofUnsignedInt indices) indices ]

/-- The shader compilation and program linking of lines 137-151. -/
def shaderCalls : List (Call K) :=
  [ .glCreateShader .vertex,
    .glShaderSource .vertexShader,
    .glCompileShader .vertexShader,
    .glCreateShader .fragment,
    .glShaderSource .fragmentShader,
    .glCompileShader .fragmentShader,
    .glCreateProgram,
    .glAttachShader .shaderProgram .vertexShader,
    .glAttachShader .shaderProgram .fragmentShader,
    .glLinkProgram .shaderProgram ]

/-- The text sent to `std::cerr` on a link failure (line 159), before the `std::endl`. -/
def linkErrorMessage (infoLog : String) : String :=
  "Error: Shader program linking failed\n" ++ infoLog

/-- The link-status check of lines 153-160. -/
def linkCheckCalls (env : Env K) : List (Call K) :=
  let success := env.linkSuccess
  .glGetProgramiv .shaderProgram success ::
    (if !success then
      [.glGetProgramInfoLog .shaderProgram 512, .cerr (linkErrorMessage env.infoLog)]
    else [])

/-- The calls of one loop body (lines 179-203) after the state update: `s` is the updated
state and `t` the clock value read. -/
def frameCalls (s : LoopState K) (t : K) : List (Call K) :=
  [ .glClear,
    .glfwGetTime t,
    .glUniformMatrix4fv 1 s.model,
    .glBindVertexArray (some .VAO),
    .glDrawElements (sizeofArray sizeofFloat (vertices : List K)),
    .glBindVertexArray none,
    .glfwSwapBuffers,
    .glfwPollEvents ]

/-- The `while` loop of lines 176-204, observed for at most `fuel` tests of the close flag;
`k` counts the iterations done so far.  The result is the calls made and whether the loop
has been left. -/
def frameLoop (L : CMath K) (env : Env K) : Nat → Nat → LoopState K → List (Call K) × Bool
  | 0, _, _ => ([], false)
  | fuel + 1, k, s =>
    if env.shouldClose k then
      ([.glfwWindowShouldClose true], true)
    else
      let t := env.time k
      let s := frameStep L s t
      let rest := frameLoop L env fuel (k + 1) s
      (.glfwWindowShouldClose false :: (frameCalls s t ++ rest.1), rest.2)

/-- The release of resources of lines 206-211. -/
def teardownCalls : List (Call K) :=
  [ .glDeleteVertexArrays 1 .VAO,
    .glDeleteBuffers 1 .VBO,
    .glDeleteBuffers 1 .EBO,
    .glfwTerminate ]

/-- Lines 162-212: binding the program, the frame loop and the teardown. -/
def renderPhase (L : CMath K) (env : Env K) (fuel : Nat) : Outcome K :=
  let tr : List (Call K) :=
    [.glUseProgram .shaderProgram, .glGetUniformLocation .shaderProgram "model"]
  let s := initState L
  let loop := frameLoop L env fuel 0 s
  if loop.2 then
    ⟨tr ++ loop.1 ++ teardownCalls, some 0⟩
  else
    ⟨tr ++ loop.1, none⟩

/-- The function `main`, observed for at most `fuel` tests of the close flag. -/
def main (L : CMath K) (env : Env K) (fuel : Nat) : Outcome K :=
  let tr : List (Call K) := [.glfwInit env.glfwInitOk]
  if !env.glfwInitOk then
    ⟨tr, some (-1)⟩
  else
    let tr := tr ++ [.glfwCreateWindow 640 480 "Hello World" env.windowCreated]
    if !env.windowCreated then
      ⟨tr ++ [.glfwTerminate], some (-1)⟩
    else
      let tr := tr ++ [.glfwMakeContextCurrent, .glewInit env.glewOk]
      if !env.glewOk then
        ⟨tr ++ [.cout "Error ! glewInit", .glfwTerminate], some (-1)⟩
      else
        let tr := tr ++ [.cout "Done ! glewInit", .glGetString, .cout env.glVersion]
        let tr := tr ++ meshCalls ++ shaderCalls ++ linkCheckCalls env
        let rest := renderPhase L env fuel
        ⟨tr ++ rest.trace, rest.exitCode⟩

/-! ## Expected traces, used to state the theorems -/

/-- The clock values read by `n` consecutive iterations, the first of which is iteration
number `k`. -/
def clockReadings (env : Env K) (k n : Nat) : List K :=
  (List.range n).map fun i => env.time (k + i)

/-- The calls of the `j`-th further iteration of a loop that is in state `s` after `k`
iterations: one test of the close flag, then the body with the state updated `j + 1` times. -/
def iterationCalls (L : CMath K) (env : Env K) (s : LoopState K) (k j : Nat) : List (Call K) :=
  .glfwWindowShouldClose false ::
    frameCalls (runFrames L s (clockReadings env k (j + 1))) (env.time (k + j))

/-- The calls of lines 59-86 when the window library, the window and the function loader
all come up. -/
def contextCalls (env : Env K) : List (Call K) :=
  [ .glfwInit true,
    .glfwCreateWindow 640 480 "Hello World" true,
    .glfwMakeContextCurrent,
    .glewInit true,
    .cout "Done ! glewInit",
    .glGetString,
    .cout env.glVersion ]

end Program

/-! # Theorems -/

/-! ## `glm::rotate` is a matrix product -/

section Composition
variable {K : Type} [Field K]

theorem toMatrix_mul (a b : Mat4 K) : (a.mul b).toMatrix = a.toMatrix * b.toMatrix := by
  ext i j
  simp only [Matrix.mul_apply, Fin.sum_univ_four, Mat4.toMatrix, Matrix.of_apply]
  fin_cases i <;> fin_cases j <;> rfl

theorem rotate_eq_mul (L : CMath K) (m : Mat4 K) (a : K) (v : Vec3 K) :
    rotate L m a v = m.mul (rotationPart L a v).toMat4 := by
  simp [rotate, Mat4.mul, Rot3.toMat4, Vec4.add, Vec4.scale]

theorem toMatrix_rotate (L : CMath K) (m : Mat4 K) (a : K) (v : Vec3 K) :
    (rotate L m a v).toMatrix = m.toMatrix * (rotationPart L a v).toMat4.toMatrix := by
  rw [rotate_eq_mul, toMatrix_mul]

theorem toMatrix_identity : (Mat4.identity : Mat4 K).toMatrix = 1 := by
  ext i j
  fin_cases i <;> fin_cases j <;> simp [Mat4.identity, Mat4.toMatrix, Mat4.col, Vec4.get]

theorem toMatrix_initState (L : CMath K) :
    (initState L).model.toMatrix = 1 * tiltMatrix L := by
  simp only [initState, toMatrix_rotate, toMatrix_identity, tiltMatrix]

theorem toMatrix_runFrames (L : CMath K) (ts : List K) (s : LoopState K) :
    (runFrames L s ts).model.toMatrix
      = s.model.toMatrix
          * ((frameDeltas s.currentFrame ts).map fun d => yRotation L (radians L (d * 10))).prod := by
  induction ts generalizing s with
  | nil => simp [runFrames, frameDeltas]
  | cons t ts ih =>
    have step : runFrames L s (t :: ts) = runFrames L (frameStep L s t) ts := rfl
    rw [step, ih]
    simp only [frameStep, toMatrix_rotate, frameDeltas, List.map_cons, List.prod_cons,
      yRotation, mul_assoc]

end Composition

/-! ## Exact real arithmetic: rotations about `axis1` -/

section Exact

theorem normalize_axis1 (L : CMath ℝ) (hL : L.Exact) : normalize L (axis1 : Vec3 ℝ) = axis1 := by
  obtain ⟨-, -, hq, -⟩ := hL
  simp [normalize, inversesqrt, axis1, Vec3.dot, Vec3.scale, hq]

theorem rotationPart_axis1 (L : CMath ℝ) (hL : L.Exact) (a : ℝ) :
    rotationPart L a axis1
      = ⟨Real.cos a, 0, -Real.sin a, 0, 1, 0, Real.sin a, 0, Real.cos a⟩ := by
  have hn := normalize_axis1 L hL
  obtain ⟨hc, hs, -, -⟩ := hL
  simp only [rotationPart, hn, hc, hs]
  simp [axis1, Vec3.scale]

theorem yRotation_zero (L : CMath ℝ) (hL : L.Exact) : yRotation L 0 = 1 := by
  rw [yRotation, rotationPart_axis1 L hL, ← toMatrix_identity]
  simp [Rot3.toMat4, Mat4.identity]

theorem yRotation_add (L : CMath ℝ) (hL : L.Exact) (a b : ℝ) :
    yRotation L a * yRotation L b = yRotation L (a + b) := by
  simp only [yRotation, rotationPart_axis1 L hL, ← toMatrix_mul]
  apply congrArg Mat4.toMatrix
  simp only [Mat4.mul, Rot3.toMat4, Vec4.add, Vec4.scale, Real.cos_add, Real.sin_add,
    Mat4.mk.injEq, Vec4.mk.injEq]
  refine ⟨⟨?_, ?_, ?_, ?_⟩, ⟨?_, ?_, ?_, ?_⟩, ⟨?_, ?_, ?_, ?_⟩, ⟨?_, ?_, ?_, ?_⟩⟩ <;> ring

theorem rotate_zero_axis1 (L : CMath ℝ) (hL : L.Exact) (m : Mat4 ℝ) :
    rotate L m 0 axis1 = m := by
  simp [rotate, rotationPart_axis1 L hL, Vec4.add, Vec4.scale]

end Exact

/-! ## Exact real arithmetic: the rotation block is orthonormal -/

section Ortho

theorem block3_apply {K : Type} [Field K] (m : Mat4 K) (i j : Fin 3) :
    m.block3 i j = (m.col3 j).xyz i := rfl

theorem rot_orthonormal (c s x y z : ℝ) (h1 : c ^ 2 + s ^ 2 = 1)
    (h2 : x ^ 2 + y ^ 2 + z ^ 2 = 1) :
    (Rot3.toMat4 ⟨c + x * (1 - c) * x, x * (1 - c) * y + s * z, x * (1 - c) * z - s * y,
                  y * (1 - c) * x - s * z, c + y * (1 - c) * y, y * (1 - c) * z + s * x,
                  z * (1 - c) * x + s * y, z * (1 - c) * y - s * x, c + z * (1 - c) * z⟩).block3
      * (Rot3.toMat4 ⟨c + x * (1 - c) * x, x * (1 - c) * y + s * z, x * (1 - c) * z - s * y,
                  y * (1 - c) * x - s * z, c + y * (1 - c) * y, y * (1 - c) * z + s * x,
                  z * (1 - c) * x + s * y, z * (1 - c) * y - s * x,
                  c + z * (1 - c) * z⟩).block3.transpose = 1 := by
  ext i j
  fin_cases i <;> fin_cases j <;>
    simp [Matrix.mul_apply, Fin.sum_univ_three, block3_apply, Mat4.col3, Vec4.xyz, Rot3.toMat4]
  · linear_combination (1 - x * x) * h1 + (s ^ 2 + x * x * (1 - c) ^ 2) * h2
  · linear_combination (- (x * y)) * h1 + (x * y * (1 - c) ^ 2) * h2
  · linear_combination (- (x * z)) * h1 + (x * z * (1 - c) ^ 2) * h2
  · linear_combination (- (y * x)) * h1 + (y * x * (1 - c) ^ 2) * h2
  · linear_combination (1 - y * y) * h1 + (s ^ 2 + y * y * (1 - c) ^ 2) * h2
  · linear_combination (- (y * z)) * h1 + (y * z * (1 - c) ^ 2) * h2
  · linear_combination (- (z * x)) * h1 + (z * x * (1 - c) ^ 2) * h2
  · linear_combination (- (z * y)) * h1 + (z * y * (1 - c) ^ 2) * h2
  · linear_combination (1 - z * z) * h1 + (s ^ 2 + z * z * (1 - c) ^ 2) * h2

end Ortho

section Ortho2

theorem normalize_unit (L : CMath ℝ) (hL : L.Exact) (v : Vec3 ℝ) (hv : 0 < v.dot v) :
    (normalize L v).x ^ 2 + (normalize L v).y ^ 2 + (normalize L v).z ^ 2 = 1 := by
  obtain ⟨-, -, hq, -⟩ := hL
  have hpos : 0 < Real.sqrt (v.dot v) := Real.sqrt_pos.mpr hv
  have hsq : Real.sqrt (v.dot v) * Real.sqrt (v.dot v) = v.dot v := Real.mul_self_sqrt hv.le
  have hd : v.x * v.x + v.y * v.y + v.z * v.z = v.dot v := rfl
  simp only [normalize, inversesqrt, Vec3.scale, hq]
  field_simp
  nlinarith [hsq, hd]

theorem rotationPart_orthonormal (L : CMath ℝ) (hL : L.Exact) (a : ℝ) (v : Vec3 ℝ)
    (hv : 0 < v.dot v) :
    (rotationPart L a v).toMat4.block3 * (rotationPart L a v).toMat4.block3.transpose = 1 := by
  have hn := normalize_unit L hL v hv
  have hcs : L.cos a ^ 2 + L.sin a ^ 2 = 1 := by
    rw [hL.1, hL.2.1]
    exact Real.cos_sq_add_sin_sq a
  exact rot_orthonormal (L.cos a) (L.sin a) _ _ _ hcs hn

theorem block3_identity {K : Type} [Field K] : (Mat4.identity : Mat4 K).block3 = 1 := by
  ext i j
  fin_cases i <;> fin_cases j <;> simp [Mat4.identity, block3_apply, Mat4.col3, Vec4.xyz]

theorem block3_rotate {K : Type} [Field K] (L : CMath K) (m : Mat4 K) (a : K) (v : Vec3 K) :
    (rotate L m a v).block3 = m.block3 * (rotationPart L a v).toMat4.block3 := by
  ext i j
  fin_cases i <;> fin_cases j <;>
    simp [Matrix.mul_apply, Fin.sum_univ_three, block3_apply, Mat4.col3, Vec4.xyz, Rot3.toMat4,
      rotate, Vec4.add, Vec4.scale]

theorem rotate_orthonormal (L : CMath ℝ) (hL : L.Exact) (m : Mat4 ℝ) (a : ℝ) (v : Vec3 ℝ)
    (hv : 0 < v.dot v) (hm : m.block3 * m.block3.transpose = 1) :
    (rotate L m a v).block3 * (rotate L m a v).block3.transpose = 1 := by
  rw [block3_rotate, Matrix.transpose_mul, Matrix.mul_assoc,
    ← Matrix.mul_assoc _ _ m.block3.transpose, rotationPart_orthonormal L hL a v hv,
    Matrix.one_mul, hm]

theorem axis0_dot_pos : 0 < (axis0 : Vec3 ℝ).dot axis0 := by
  norm_num [axis0, Vec3.dot]

theorem axis1_dot_pos : 0 < (axis1 : Vec3 ℝ).dot axis1 := by
  norm_num [axis1, Vec3.dot]

theorem initState_orthonormal (L : CMath ℝ) (hL : L.Exact) :
    (initState L).model.block3 * (initState L).model.block3.transpose = 1 := by
  apply rotate_orthonormal L hL _ _ _ axis0_dot_pos
  rw [block3_identity, Matrix.transpose_one, Matrix.one_mul]

theorem runFrames_orthonormal (L : CMath ℝ) (hL : L.Exact) (ts : List ℝ) (s : LoopState ℝ)
    (hs : s.model.block3 * s.model.block3.transpose = 1) :
    (runFrames L s ts).model.block3 * (runFrames L s ts).model.block3.transpose = 1 := by
  induction ts generalizing s with
  | nil => exact hs
  | cons t ts ih =>
    have step : runFrames L s (t :: ts) = runFrames L (frameStep L s t) ts := rfl
    rw [step]
    exact ih _ (rotate_orthonormal L hL _ _ _ axis1_dot_pos hs)

end Ortho2

/-! ## Exact real arithmetic: the frame deltas telescope -/

section Telescoping

theorem radians_add (L : CMath ℝ) (a b : ℝ) : radians L a + radians L b = radians L (a + b) := by
  simp only [radians]
  ring

theorem frameStep_telescopes (L : CMath ℝ) (hL : L.Exact) (s : LoopState ℝ) (t : ℝ)
    (hs : s.model.toMatrix = tiltMatrix L * yRotation L (radians L (10 * s.currentFrame))) :
    (frameStep L s t).model.toMatrix = tiltMatrix L * yRotation L (radians L (10 * t)) := by
  have hstep : (frameStep L s t).model.toMatrix
      = s.model.toMatrix * yRotation L (radians L ((t - s.currentFrame) * 10)) :=
    toMatrix_rotate L _ _ _
  have hsum : 10 * s.currentFrame + (t - s.currentFrame) * 10 = 10 * t := by ring
  rw [hstep, hs, Matrix.mul_assoc, yRotation_add L hL, radians_add, hsum]

theorem runFrames_currentFrame {K : Type} [Field K] (L : CMath K) (ts : List K)
    (s : LoopState K) :
    (runFrames L s ts).currentFrame = ts.getLast?.getD s.currentFrame := by
  induction ts generalizing s with
  | nil => rfl
  | cons t ts ih =>
    have step : runFrames L s (t :: ts) = runFrames L (frameStep L s t) ts := rfl
    rw [step, ih]
    cases ts <;> simp [frameStep, List.getLast?]

theorem runFrames_telescopes (L : CMath ℝ) (hL : L.Exact) (ts : List ℝ) (s : LoopState ℝ)
    (hs : s.model.toMatrix = tiltMatrix L * yRotation L (radians L (10 * s.currentFrame))) :
    (runFrames L s ts).model.toMatrix
      = tiltMatrix L * yRotation L (radians L (10 * (runFrames L s ts).currentFrame)) := by
  induction ts generalizing s with
  | nil => exact hs
  | cons t ts ih =>
    have step : runFrames L s (t :: ts) = runFrames L (frameStep L s t) ts := rfl
    rw [step]
    exact ih _ (frameStep_telescopes L hL s t hs)

theorem initState_telescopes (L : CMath ℝ) (hL : L.Exact) :
    (initState L).model.toMatrix
      = tiltMatrix L * yRotation L (radians L (10 * (initState L).currentFrame)) := by
  have h0 : radians L (10 * (initState L).currentFrame) = 0 := by
    simp [initState, radians]
  rw [h0, yRotation_zero L hL, toMatrix_initState, Matrix.one_mul, Matrix.mul_one]

end Telescoping


/-! ## The frame loop and `main` as traces -/

section Trace

theorem clockReadings_succ {K : Type} (env : Env K) (k n : Nat) :
    clockReadings env k (n + 1) = env.time k :: clockReadings env (k + 1) n := by
  simp only [clockReadings, List.range_succ_eq_map, List.map_cons, List.map_map, Nat.add_zero]
  congr 1
  apply List.map_congr_left
  intro i _
  simp only [Function.comp, Nat.succ_eq_add_one]
  congr 1
  omega

variable {K : Type} [Field K]

theorem iterationCalls_succ (L : CMath K) (env : Env K) (s : LoopState K) (k j : Nat) :
    iterationCalls L env s k (j + 1)
      = iterationCalls L env (frameStep L s (env.time k)) (k + 1) j := by
  have ht : env.time (k + (j + 1)) = env.time (k + 1 + j) := by
    congr 1
    omega
  simp only [iterationCalls, clockReadings_succ env k (j + 1), ht]
  rfl

theorem iterationCalls_zero (L : CMath K) (env : Env K) (s : LoopState K) (k : Nat) :
    iterationCalls L env s k 0
      = .glfwWindowShouldClose false
          :: frameCalls (frameStep L s (env.time k)) (env.time k) := by
  rw [iterationCalls, clockReadings_succ]
  simp [clockReadings, runFrames]

theorem frameLoop_until_close (L : CMath K) (env : Env K) (n : Nat) :
    ∀ (fuel k : Nat) (s : LoopState K),
      (∀ j, j < n → env.shouldClose (k + j) = false) → env.shouldClose (k + n) = true →
      n < fuel →
      frameLoop L env fuel k s
        = ((List.range n).flatMap (iterationCalls L env s k) ++ [.glfwWindowShouldClose true],
            true) := by
  induction n with
  | zero =>
    intro fuel k s _ hclose hfuel
    obtain ⟨f, rfl⟩ : ∃ f, fuel = f + 1 := ⟨fuel - 1, by omega⟩
    have hk : env.shouldClose k = true := by simpa using hclose
    simp [frameLoop, hk]
  | succ n ih =>
    intro fuel k s hopen hclose hfuel
    obtain ⟨f, rfl⟩ : ∃ f, fuel = f + 1 := ⟨fuel - 1, by omega⟩
    have hk : env.shouldClose k = false := by simpa using hopen 0 (by omega)
    have hopen2 : ∀ j, j < n → env.shouldClose (k + 1 + j) = false := by
      intro j hj
      have := hopen (j + 1) (by omega)
      rwa [show k + (j + 1) = k + 1 + j by omega] at this
    have hclose2 : env.shouldClose (k + 1 + n) = true := by
      rwa [show k + (n + 1) = k + 1 + n by omega] at hclose
    have hrest := ih f (k + 1) (frameStep L s (env.time k)) hopen2 hclose2 (by omega)
    have hflat : (List.range (n + 1)).flatMap (iterationCalls L env s k)
        = iterationCalls L env s k 0
            ++ (List.range n).flatMap
                (iterationCalls L env (frameStep L s (env.time k)) (k + 1)) := by
      rw [List.range_succ_eq_map, List.flatMap_cons, List.flatMap_map]
      simp only [Nat.succ_eq_add_one, iterationCalls_succ]
    rw [hflat, iterationCalls_zero]
    simp [frameLoop, hk, hrest]

theorem frameLoop_linkSuccess (L : CMath K) (env : Env K) (b : Bool) (fuel : Nat) :
    ∀ (k : Nat) (s : LoopState K),
      frameLoop L { env with linkSuccess := b } fuel k s = frameLoop L env fuel k s := by
  induction fuel with
  | zero => intro k s; rfl
  | succ f ih =>
    intro k s
    simp only [frameLoop, ih]

theorem renderPhase_linkSuccess (L : CMath K) (env : Env K) (b : Bool) (fuel : Nat) :
    renderPhase L { env with linkSuccess := b } fuel = renderPhase L env fuel := by
  simp only [renderPhase, frameLoop_linkSuccess]

theorem linkErrorMessage_length_pos (infoLog : String) :
    0 < (linkErrorMessage infoLog).length := by
  have h : (linkErrorMessage infoLog).length
      = "Error: Shader program linking failed\n".length + infoLog.length :=
    String.length_append _ _
  have h37 : "Error: Shader program linking failed\n".length = 37 := by decide
  omega

theorem main_of_started (L : CMath K) (env : Env K) (fuel : Nat)
    (hinit : env.glfwInitOk = true) (hwin : env.windowCreated = true)
    (hglew : env.glewOk = true) :
    main L env fuel
      = ⟨contextCalls env ++ meshCalls ++ shaderCalls ++ linkCheckCalls env
            ++ (renderPhase L env fuel).trace,
          (renderPhase L env fuel).exitCode⟩ := by
  simp [main, hinit, hwin, hglew, contextCalls]

end Trace

/-! ## The claims -/

section Claims

/-- Claim C1: in a frame whose time delta `t - currentFrame` is non-negative, the angle handed
to the rotation about `axis1 = (0, 1, 0)` is the delta times 10, read as degrees and converted
to radians: `delta * 10 * π / 180`; the new orientation is `rotate` of the old one by exactly
that angle about `axis1`.  Scalars are exact reals.  (The code does not branch on the sign of
the delta, so the bound is not used in the proof.) -/
theorem frame_angle_is_ten_degrees_per_second (L : CMath ℝ) (hL : L.Exact)
    (s : LoopState ℝ) (t : ℝ) (_hdelta : 0 ≤ t - s.currentFrame) :
    frameAngle L s t = (t - s.currentFrame) * 10 * Real.pi / 180 ∧
      (frameStep L s t).model
        = rotate L s.model ((t - s.currentFrame) * 10 * Real.pi / 180) axis1 := by
  have hpi : L.pi = Real.pi := hL.2.2.2
  constructor
  · simp only [frameAngle, deltaTime, radians, hpi]
  · simp only [frameStep, radians, hpi]

/-- Witness for C1: previous-frame time 0, clock value 2, angle `π / 9` (20 degrees). -/
theorem frame_angle_is_ten_degrees_per_second_witness :
    CMath.Exact ⟨Real.cos, Real.sin, Real.sqrt, Real.pi⟩ ∧
      (0 : ℝ) ≤ 2 - (LoopState.mk 90 Mat4.identity 0).currentFrame ∧
      frameAngle ⟨Real.cos, Real.sin, Real.sqrt, Real.pi⟩ (LoopState.mk 90 Mat4.identity 0) 2
        = Real.pi / 9 := by
  refine ⟨⟨rfl, rfl, rfl, rfl⟩, by norm_num, ?_⟩
  rw [(frame_angle_is_ten_degrees_per_second ⟨Real.cos, Real.sin, Real.sqrt, Real.pi⟩
    ⟨rfl, rfl, rfl, rfl⟩ (LoopState.mk 90 Mat4.identity 0) 2 (by norm_num)).1]
  show (2 - (0 : ℝ)) * 10 * Real.pi / 180 = Real.pi / 9
  ring

/-- Claim C2: a frame whose time delta is 0 leaves the orientation matrix unchanged, whatever
the matrix is (reachable or not): `rotate(model, radians(0 * 10), (0, 1, 0)) = model`.
Scalars are exact reals. -/
theorem zero_delta_keeps_orientation (L : CMath ℝ) (hL : L.Exact) (s : LoopState ℝ) (t : ℝ)
    (hzero : deltaTime s t = 0) :
    (frameStep L s t).model = s.model ∧
      rotate L s.model (radians L (0 * 10)) axis1 = s.model := by
  have h0 : radians L (0 * 10) = 0 := by simp [radians]
  have hd : t - s.currentFrame = 0 := hzero
  constructor
  · simp only [frameStep, hd, h0, rotate_zero_axis1 L hL]
  · rw [h0, rotate_zero_axis1 L hL]

/-- Witness for C2: previous-frame time 5, clock value 5, orientation the identity. -/
theorem zero_delta_keeps_orientation_witness :
    CMath.Exact ⟨Real.cos, Real.sin, Real.sqrt, Real.pi⟩ ∧
      deltaTime (LoopState.mk 90 (Mat4.identity : Mat4 ℝ) 5) 5 = 0 ∧
      (frameStep ⟨Real.cos, Real.sin, Real.sqrt, Real.pi⟩
          (LoopState.mk 90 Mat4.identity 5) 5).model = Mat4.identity :=
  ⟨⟨rfl, rfl, rfl, rfl⟩, by simp [deltaTime],
    (zero_delta_keeps_orientation ⟨Real.cos, Real.sin, Real.sqrt, Real.pi⟩ ⟨rfl, rfl, rfl, rfl⟩
      (LoopState.mk 90 Mat4.identity 5) 5 (by simp [deltaTime])).1⟩

/-- Claim C3: for every list of frame timestamps (of any length, the empty one included) the
orientation matrix that the loop accumulates step by step equals the ordered product
`I * T * R_1 * ... * R_N`: `I` the identity, `T` the tilt by 90 degrees about
`(0, 0.6, 0.5)`, `R_k` the rotation about `(0, 1, 0)` by `radians(10 * delta_k)`, where
`delta_k` is the `k`-th timestamp minus the one before it (0 before the first).  Holds over
any field of scalars and for any math library. -/
theorem orientation_after_frames_is_ordered_product {K : Type} [Field K] (L : CMath K)
    (ts : List K) :
    (runFrames L (initState L) ts).model.toMatrix
      = 1 * tiltMatrix L
          * ((frameDeltas 0 ts).map fun d => yRotation L (radians L (10 * d))).prod := by
  rw [toMatrix_runFrames, toMatrix_initState]
  simp only [mul_comm (10 : K)]
  rfl

/-- Claim C4: after initialisation and after any number of frames with any clock values, the
upper-left 3×3 block `B` of the orientation matrix satisfies `B * Bᵀ = 1`.  Scalars are
exact reals; the list `ts` is empty right after initialisation. -/
theorem orientation_block_orthonormal (L : CMath ℝ) (hL : L.Exact) (ts : List ℝ) :
    (runFrames L (initState L) ts).model.block3
      * (runFrames L (initState L) ts).model.block3.transpose = 1 :=
  runFrames_orthonormal L hL ts _ (initState_orthonormal L hL)

/-- Witness for C4: two frames, at clock values 1 and 2.5. -/
theorem orientation_block_orthonormal_witness :
    CMath.Exact ⟨Real.cos, Real.sin, Real.sqrt, Real.pi⟩ ∧
      (runFrames ⟨Real.cos, Real.sin, Real.sqrt, Real.pi⟩
          (initState ⟨Real.cos, Real.sin, Real.sqrt, Real.pi⟩) [1, 2.5]).model.block3
        * (runFrames ⟨Real.cos, Real.sin, Real.sqrt, Real.pi⟩
            (initState ⟨Real.cos, Real.sin, Real.sqrt, Real.pi⟩)
            [1, 2.5]).model.block3.transpose = 1 :=
  ⟨⟨rfl, rfl, rfl, rfl⟩,
    orientation_block_orthonormal ⟨Real.cos, Real.sin, Real.sqrt, Real.pi⟩
      ⟨rfl, rfl, rfl, rfl⟩ [1, 2.5]⟩

/-- Claim C5, amended: there are three checked start-up failure points: `glfwInit` fails,
`glfwCreateWindow` returns no window, `glewInit` fails.  Each ends the run with exit code -1
before any call of the frame loop.  After a window or loader failure `glfwTerminate` is the
last call before the return; after a `glfwInit` failure no further call is made.  When all
three succeed the run does not return a negative code. -/
theorem startup_failure_points {K : Type} [Field K] (L : CMath K) (env : Env K) (fuel : Nat) :
    (env.glfwInitOk = false →
      main L env fuel = ⟨[.glfwInit false], some (-1)⟩) ∧
    (env.glfwInitOk = true → env.windowCreated = false →
      main L env fuel
        = ⟨[.glfwInit true, .glfwCreateWindow 640 480 "Hello World" false, .glfwTerminate],
            some (-1)⟩) ∧
    (env.glfwInitOk = true → env.windowCreated = true → env.glewOk = false →
      main L env fuel
        = ⟨[.glfwInit true, .glfwCreateWindow 640 480 "Hello World" true,
             .glfwMakeContextCurrent, .glewInit false, .cout "Error ! glewInit",
             .glfwTerminate],
            some (-1)⟩) ∧
    (env.glfwInitOk = true → env.windowCreated = true → env.glewOk = true →
      (main L env fuel).exitCode = none ∨ (main L env fuel).exitCode = some 0) := by
  refine ⟨?_, ?_, ?_, ?_⟩
  · intro h1
    simp [main, h1]
  · intro h1 h2
    simp [main, h1, h2]
  · intro h1 h2 h3
    simp [main, h1, h2, h3]
  · intro h1 h2 h3
    simp only [main, h1, h2, h3, renderPhase]
    by_cases hc : (frameLoop L env fuel 0 (initState L)).2 = true
    · right
      simp [hc]
    · left
      simp [hc]

/-- Witness for C5, amended: the function loader fails after the window came up. -/
theorem startup_failure_points_witness :
    main ⟨Real.cos, Real.sin, Real.sqrt, Real.pi⟩
        ⟨true, true, false, "", true, "", fun _ => false, fun _ => 0⟩ 1
      = ⟨[.glfwInit true, .glfwCreateWindow 640 480 "Hello World" true,
           .glfwMakeContextCurrent, .glewInit false, .cout "Error ! glewInit",
           .glfwTerminate],
          some (-1)⟩ :=
  (startup_failure_points ⟨Real.cos, Real.sin, Real.sqrt, Real.pi⟩
    ⟨true, true, false, "", true, "", fun _ => false, fun _ => 0⟩ 1).2.2.1 rfl rfl rfl

/-- Counterexample to C5 as stated: when `glfwInit` fails the run returns -1 and its trace
holds no `glfwTerminate` call. -/
theorem init_failure_returns_without_terminate :
    (main ⟨Real.cos, Real.sin, Real.sqrt, Real.pi⟩
        ⟨false, true, true, "", true, "", fun _ => true, fun _ => 0⟩ 1).exitCode = some (-1) ∧
      Call.glfwTerminate ∉
        (main ⟨Real.cos, Real.sin, Real.sqrt, Real.pi⟩
          ⟨false, true, true, "", true, "", fun _ => true, fun _ => 0⟩ 1).trace := by
  simp [main]

/-- Claim C6: when start-up succeeds, the close flag is clear at the first `n` tests and set
at the next one, then (observing more than `n` tests) the run is: the start-up calls; `n`
iterations, each one test of the flag followed by the body with its single uniform upload and
single draw call; the test that sees the flag set; then `glDeleteVertexArrays(1, VAO)`,
`glDeleteBuffers(1, VBO)`, `glDeleteBuffers(1, EBO)`, `glfwTerminate`, in that order, and
nothing else; the return value is 0. -/
theorem close_flag_ends_loop_then_teardown {K : Type} [Field K] (L : CMath K) (env : Env K)
    (n fuel : Nat) (hinit : env.glfwInitOk = true) (hwin : env.windowCreated = true)
    (hglew : env.glewOk = true) (hopen : ∀ k, k < n → env.shouldClose k = false)
    (hclose : env.shouldClose n = true) (hfuel : n < fuel) :
    main L env fuel
      = ⟨contextCalls env ++ meshCalls ++ shaderCalls ++ linkCheckCalls env
            ++ [.glUseProgram .shaderProgram, .glGetUniformLocation .shaderProgram "model"]
            ++ (List.range n).flatMap (fun j =>
                [ .glfwWindowShouldClose false,
                  .glClear,
                  .glfwGetTime (env.time j),
                  .glUniformMatrix4fv 1
                    (runFrames L (initState L) ((List.range (j + 1)).map env.time)).model,
                  .glBindVertexArray (some .VAO),
                  .glDrawElements 96,
                  .glBindVertexArray none,
                  .glfwSwapBuffers,
                  .glfwPollEvents ])
            ++ [ .glfwWindowShouldClose true,
                 .glDeleteVertexArrays 1 .VAO,
                 .glDeleteBuffers 1 .VBO,
                 .glDeleteBuffers 1 .EBO,
                 .glfwTerminate ],
          some 0⟩ := by
  have hopen0 : ∀ j, j < n → env.shouldClose (0 + j) = false := by
    intro j hj
    simpa using hopen j hj
  have hclose0 : env.shouldClose (0 + n) = true := by simpa using hclose
  have hloop := frameLoop_until_close L env n fuel 0 (initState L) hopen0 hclose0 hfuel
  have hiter : ∀ j, iterationCalls L env (initState L) 0 j
      = [ .glfwWindowShouldClose false, .glClear, .glfwGetTime (env.time j),
          .glUniformMatrix4fv 1
            (runFrames L (initState L) ((List.range (j + 1)).map env.time)).model,
          .glBindVertexArray (some .VAO), .glDrawElements 96, .glBindVertexArray none,
          .glfwSwapBuffers, .glfwPollEvents ] := by
    intro j
    simp [iterationCalls, frameCalls, clockReadings, sizeofArray, sizeofFloat, vertices]
  rw [funext hiter] at hloop
  simp [main, hinit, hwin, hglew, renderPhase, hloop, contextCalls, teardownCalls]

/-- Witness for C6: the flag is clear at tests 0 and 1 and set from test 2 on; three tests
are observed and the run returns 0. -/
theorem close_flag_ends_loop_then_teardown_witness :
    (∀ k, k < 2 → decide (2 ≤ k) = false) ∧ decide (2 ≤ 2) = true ∧ 2 < 3 ∧
      (main ⟨Real.cos, Real.sin, Real.sqrt, Real.pi⟩
        ⟨true, true, true, "4.6", true, "", fun k => decide (2 ≤ k), fun k => (k : ℝ)⟩
        3).exitCode = some 0 :=
  have hopen : ∀ k, k < 2 → decide (2 ≤ k) = false := by
    intro k hk
    simp only [decide_eq_false_iff_not]
    omega
  ⟨hopen, by decide, by decide,
    congrArg Outcome.exitCode
      (close_flag_ends_loop_then_teardown ⟨Real.cos, Real.sin, Real.sqrt, Real.pi⟩
        ⟨true, true, true, "4.6", true, "", fun k => decide (2 ≤ k), fun k => (k : ℝ)⟩
        2 3 rfl rfl rfl hopen (by decide) (by decide))⟩

/-- Claim C7: when start-up succeeds, the run with link status failure and the run with link
status success (same environment otherwise) have the same calls before the link check, the
same calls after it (binding the program, the frame loop, the teardown) and the same return
value; the failure run has in between, after reading the status, the fetch of the info log
and one write to `std::cerr`, of a non-empty text.  The calls after the check start with
`glUseProgram`, `glGetUniformLocation` and the first test of the close flag. -/
theorem link_failure_logged_not_fatal {K : Type} [Field K] (L : CMath K) (env : Env K)
    (fuel : Nat) (hinit : env.glfwInitOk = true) (hwin : env.windowCreated = true)
    (hglew : env.glewOk = true) :
    main L { env with linkSuccess := false } fuel
        = ⟨contextCalls env ++ meshCalls ++ shaderCalls
              ++ [ .glGetProgramiv .shaderProgram false,
                   .glGetProgramInfoLog .shaderProgram 512,
                   .cerr (linkErrorMessage env.infoLog) ]
              ++ (renderPhase L env fuel).trace,
            (renderPhase L env fuel).exitCode⟩ ∧
      main L { env with linkSuccess := true } fuel
        = ⟨contextCalls env ++ meshCalls ++ shaderCalls
              ++ [.glGetProgramiv .shaderProgram true]
              ++ (renderPhase L env fuel).trace,
            (renderPhase L env fuel).exitCode⟩ ∧
      linkErrorMessage env.infoLog ≠ "" ∧
      (∃ rest, (renderPhase L env (fuel + 1)).trace
          = [ .glUseProgram .shaderProgram,
              .glGetUniformLocation .shaderProgram "model",
              .glfwWindowShouldClose (env.shouldClose 0) ] ++ rest) := by
  refine ⟨?_, ?_, ?_, ?_⟩
  · rw [main_of_started L { env with linkSuccess := false } fuel hinit hwin hglew,
      renderPhase_linkSuccess]
    simp [linkCheckCalls, contextCalls]
  · rw [main_of_started L { env with linkSuccess := true } fuel hinit hwin hglew,
      renderPhase_linkSuccess]
    simp [linkCheckCalls, contextCalls]
  · intro h
    have hpos := linkErrorMessage_length_pos env.infoLog
    rw [h] at hpos
    exact absurd hpos (by decide)
  · cases hc : env.shouldClose 0
    · by_cases hr : (frameLoop L env fuel 1
          (frameStep L (initState L) (env.time 0))).2 = true
      · exact ⟨_, by simp [renderPhase, frameLoop, hc, hr]; rfl⟩
      · exact ⟨_, by simp [renderPhase, frameLoop, hc, hr]; rfl⟩
    · exact ⟨_, by simp [renderPhase, frameLoop, hc]; rfl⟩

/-- Witness for C7: the link fails with an empty info log, the flag is set at the first
test; the text logged is not empty and the run still returns 0. -/
theorem link_failure_logged_not_fatal_witness :
    linkErrorMessage "" ≠ "" ∧
      (main ⟨Real.cos, Real.sin, Real.sqrt, Real.pi⟩
        ⟨true, true, true, "4.6", false, "", fun _ => true, fun _ => (0 : ℝ)⟩
        1).exitCode = some 0 :=
  have h := link_failure_logged_not_fatal ⟨Real.cos, Real.sin, Real.sqrt, Real.pi⟩
    ⟨true, true, true, "4.6", false, "", fun _ => true, fun _ => (0 : ℝ)⟩ 1 rfl rfl rfl
  ⟨h.2.2.1, (congrArg Outcome.exitCode h.1).trans (by simp [renderPhase, frameLoop])⟩

/-- Claim C8, amended: when start-up succeeds the run uploads the array `vertices`, 24 floats
in 96 bytes, that is 8 vertex positions of 3 floats each, and the array `indices`, 36 indices
in 144 bytes, that is 12 triangles. -/
theorem uploaded_mesh_is_eight_vertices_twelve_triangles {K : Type} [Field K] (L : CMath K)
    (env : Env K) (fuel : Nat) (hinit : env.glfwInitOk = true)
    (hwin : env.windowCreated = true) (hglew : env.glewOk = true) :
    Call.glBufferDataFloat .arrayBuffer 96 vertices ∈ (main L env fuel).trace ∧
      Call.glBufferDataUInt .elementArrayBuffer 144 indices ∈ (main L env fuel).trace ∧
      (vertices : List K).length = 8 * 3 ∧
      indices.length = 12 * 3 := by
  rw [main_of_started L env fuel hinit hwin hglew]
  refine ⟨?_, ?_, rfl, rfl⟩
  · simp [meshCalls, sizeofArray, sizeofFloat, vertices]
  · simp [meshCalls, sizeofArray, sizeofUnsignedInt, indices]

/-- Witness for C8, amended: a run whose start-up succeeds. -/
theorem uploaded_mesh_is_eight_vertices_twelve_triangles_witness :
    Call.glBufferDataFloat .arrayBuffer 96 vertices ∈
        (main ⟨Real.cos, Real.sin, Real.sqrt, Real.pi⟩
          ⟨true, true, true, "4.6", true, "", fun _ => true, fun _ => 0⟩ 1).trace ∧
      Call.glBufferDataUInt .elementArrayBuffer 144 indices ∈
        (main ⟨Real.cos, Real.sin, Real.sqrt, Real.pi⟩
          ⟨true, true, true, "4.6", true, "", fun _ => true, fun _ => 0⟩ 1).trace :=
  have h := uploaded_mesh_is_eight_vertices_twelve_triangles
    ⟨Real.cos, Real.sin, Real.sqrt, Real.pi⟩
    ⟨true, true, true, "4.6", true, "", fun _ => true, fun _ => 0⟩ 1 rfl rfl rfl
  ⟨h.1, h.2.1⟩

/-- Counterexample to C8 as stated: the vertex array holds 24 floats, not 12 * 3 = 36; it
describes 8 vertices. -/
theorem vertex_array_is_not_twelve_vertices :
    (vertices : List ℚ).length = 24 ∧ (vertices : List ℚ).length ≠ 12 * 3 ∧
      vertexCount = 8 := by
  decide

/-- Claim C9, the code at a failing input: in a run whose start-up succeeds and whose close
flag is clear at the first test, the draw call of the first frame passes the element count
96, the value of `sizeof(vertices)`, while the index array has 36 entries, so the count is
not within the index array; no element size makes `sizeof(vertices)` equal to the number of
indices.  The 36 indices that are present are all smaller than the number of vertices. -/
theorem draw_count_exceeds_index_array :
    Call.glDrawElements 96 ∈
        (main ⟨Real.cos, Real.sin, Real.sqrt, Real.pi⟩
          ⟨true, true, true, "4.6", true, "", fun _ => false, fun _ => 0⟩ 1).trace ∧
      sizeofArray sizeofFloat (vertices : List ℝ) = 96 ∧
      indices.length = 36 ∧
      ¬ (96 ≤ indices.length) ∧
      (∀ s : Nat, sizeofArray s (vertices : List ℝ) ≠ indices.length) ∧
      (∀ i ∈ indices, i < vertexCount) := by
  refine ⟨?_, rfl, rfl, by decide, ?_, by decide⟩
  · simp [main, renderPhase, frameLoop, frameCalls, sizeofArray, sizeofFloat, vertices]
  · intro s
    simp only [sizeofArray, vertices, indices, List.length_cons, List.length_nil]
    omega

/-- Claim C10: over exact reals, for every non-empty list of frame timestamps the orientation
after the frames is `T * R_y(radians(10 * t_N))`, with `t_N` the last timestamp: the deltas
telescope against the previous-frame time, which starts at 0. -/
theorem orientation_depends_on_last_timestamp (L : CMath ℝ) (hL : L.Exact) (ts : List ℝ)
    (hne : ts ≠ []) :
    (runFrames L (initState L) ts).model.toMatrix
      = tiltMatrix L * yRotation L (radians L (10 * ts.getLast hne)) := by
  have h := runFrames_telescopes L hL ts (initState L) (initState_telescopes L hL)
  rw [runFrames_currentFrame, List.getLast?_eq_getLast _ hne] at h
  exact h

/-- Witness for C10: two frames, at clock values 1 and 3. -/
theorem orientation_depends_on_last_timestamp_witness :
    CMath.Exact ⟨Real.cos, Real.sin, Real.sqrt, Real.pi⟩ ∧
      ([1, 3] : List ℝ) ≠ [] ∧
      (runFrames ⟨Real.cos, Real.sin, Real.sqrt, Real.pi⟩
          (initState ⟨Real.cos, Real.sin, Real.sqrt, Real.pi⟩) [1, 3]).model.toMatrix
        = tiltMatrix ⟨Real.cos, Real.sin, Real.sqrt, Real.pi⟩
            * yRotation ⟨Real.cos, Real.sin, Real.sqrt, Real.pi⟩
                (radians ⟨Real.cos, Real.sin, Real.sqrt, Real.pi⟩ (10 * 3)) :=
  ⟨⟨rfl, rfl, rfl, rfl⟩, by simp,
    orientation_depends_on_last_timestamp ⟨Real.cos, Real.sin, Real.sqrt, Real.pi⟩
      ⟨rfl, rfl, rfl, rfl⟩ [1, 3] (by simp)⟩

end Claims

end CubeOpenGL
